import Mathlib

/-!
Verification of the Revolut transaction-filter app (`src/app.py`).

The app loads a CSV of transactions into a dataframe `df` with columns
`Date` (a day-first-parsed timestamp), `Description`, `Category`, `Type`
and `Amount` (float), filters it by sidebar selections, renders the
filtered rows grouped by calendar date, and optionally forwards a
free-text query plus the full table to a chat-completion HTTP endpoint.

Modelling conventions:
* a dataframe is a `List Row`; row order is the dataframe order;
* a pandas timestamp is an `Int` (an absolute count of seconds); the
  calendar date `ts.dt.date` of a timestamp is its floor-division by
  86400, which is `Int` division `/` (Euclidean division, i.e. floor
  for a positive divisor);
* Python floats are modelled as `Rat` with exact decimal arithmetic;
  Python `round` (banker's rounding, half to even) is `roundHalfEven`;
* `sort_values("Date", ascending=False)` with the default sort kind
  (`quicksort`) guarantees only `SortValuesOutput`: a permutation of its
  input sorted descending by `Date` — pandas does not document the
  default kind as stable, so the relative order of equal-`Date` rows is
  not part of the code's contract; `sortRows` is the stable refinement
  the spec asserts (`kind="stable"` semantics), one admissible output
  among others;
* the HTTP transport is an oracle `post : RequestData → HttpResponse`;
  `res.json()["choices"][0]["message"]["content"]` is modelled by the
  field `content : Option String` of the response, `none` when the
  body does not carry that field (in Python that access raises, and
  the call-site `except` catches it like any other failure).
-/

namespace RevolutApp

/-- One row of the loaded dataframe (`load_data` in `app.py`): the five
columns the app uses, plus `other` for any further CSV columns that the
app never touches. `type` holds the `Type` column ("Income"/"Expense",
not enforced). -/
structure Row where
  date : Int
  description : String
  category : String
  type : String
  amount : Rat
  other : List (String × String)
deriving DecidableEq

/-- The calendar date of a timestamp, as in `filtered_df["Date"].dt.date`:
floor of the timestamp to a whole day. `Int` division is Euclidean, hence
floor division for the positive divisor 86400. -/
def calDay (t : Int) : Int := t / 86400

/-- The sidebar filter selection: chosen type set, category set, resolved
inclusive date range and the integer amount-slider range (`app.py`
lines 114-127). -/
structure Selection where
  types : List String
  categories : List String
  startDate : Int
  endDate : Int
  amountMin : Int
  amountMax : Int
deriving DecidableEq

/-- The value produced by the `st.date_input` widget: either a two-date
tuple or a single date (`app.py` line 118). -/
inductive DateRangeInput where
  | pair (a b : Int)
  | single (d : Int)

/-- `app.py` lines 121-124: a two-element tuple supplies `(start, end)`;
anything else (a single date) collapses to `start = end = that date`. -/
def resolveDateRange : DateRangeInput → Int × Int
  | .pair a b => (a, b)
  | .single d => (d, d)

/-- Python `round(q)`: round half to even (banker's rounding), the
semantics of the builtin `round` used at `app.py` line 127. -/
def roundHalfEven (q : Rat) : Int :=
  let f : Int := ⌊q⌋
  let frac : Rat := q - f
  if frac < 1/2 then f
  else if 1/2 < frac then f + 1
  else if f % 2 = 0 then f else f + 1

/-- Python `round(q, 2)` (used at `app.py` line 153): banker's rounding
to two decimal places. -/
def pyRound2 (q : Rat) : Rat := (roundHalfEven (q * 100) : Rat) / 100

/-- `app.py` lines 130-137: one row passes the filter iff its `Type` is
in the selected types, its `Category` in the selected categories, its
`Date` lies in `[start_date, end_date]` and `abs(Amount)` lies in
`[amount_min, amount_max]`. All four predicates are conjoined with `&`. -/
def rowPasses (s : Selection) (r : Row) : Bool :=
  decide (r.type ∈ s.types) &&
  decide (r.category ∈ s.categories) &&
  decide (s.startDate ≤ r.date) &&
  decide (r.date ≤ s.endDate) &&
  decide ((s.amountMin : Rat) ≤ |r.amount|) &&
  decide (|r.amount| ≤ (s.amountMax : Rat))

/-- `filtered_df` (`app.py` lines 130-137): the subset of `df` whose rows
pass all four predicates, in dataframe order. -/
def filteredDf (df : List Row) (s : Selection) : List Row :=
  df.filter (rowPasses s)

/-- Assembling a `Selection` from the widget values, with the date-range
widget value resolved by `resolveDateRange` (`app.py` lines 114-127). -/
def mkSelection (types categories : List String) (dr : DateRangeInput)
    (amin amax : Int) : Selection :=
  { types := types, categories := categories,
    startDate := (resolveDateRange dr).1, endDate := (resolveDateRange dr).2,
    amountMin := amin, amountMax := amax }

/-- The minimum of the `Amount` column (`df["Amount"].min()`), with a junk
value on the empty table (pandas would give NaN there). -/
def minAmount : List Row → Rat
  | [] => 0
  | r :: rs => rs.foldl (fun m x => min m x.amount) r.amount

/-- The maximum of the `Amount` column (`df["Amount"].max()`). -/
def maxAmount : List Row → Rat
  | [] => 0
  | r :: rs => rs.foldl (fun m x => max m x.amount) r.amount

/-- `app.py` line 127: the slider bounds — and its default selected
range — are `(round(df["Amount"].min()), round(df["Amount"].max()))`,
the signed extrema rounded to whole euro. -/
def defaultBounds (df : List Row) : Int × Int :=
  (roundHalfEven (minAmount df), roundHalfEven (maxAmount df))

/-- First-appearance deduplication, the order `pandas.unique` and
`groupby(sort=False)` use; `seen` accumulates the keys already kept. -/
def dedupFirstAux [DecidableEq α] (seen : List α) : List α → List α
  | [] => []
  | k :: ks =>
    if k ∈ seen then dedupFirstAux seen ks
    else k :: dedupFirstAux (k :: seen) ks

/-- Deduplication keeping the first appearance of each value, in order. -/
def dedupFirst [DecidableEq α] (l : List α) : List α := dedupFirstAux [] l

/-- The minimum of the `Date` column (`df["Date"].min()`), junk on []. -/
def minDate : List Row → Int
  | [] => 0
  | r :: rs => rs.foldl (fun m x => min m x.date) r.date

/-- The maximum of the `Date` column (`df["Date"].max()`). -/
def maxDate : List Row → Int
  | [] => 0
  | r :: rs => rs.foldl (fun m x => max m x.date) r.date

/-- The untouched default sidebar selection (`app.py` lines 114-127):
all observed types, all observed categories, the full observed date
range, and the rounded signed amount bounds. -/
def defaultSelection (df : List Row) : Selection :=
  { types := dedupFirst (df.map Row.type),
    categories := dedupFirst (df.map Row.category),
    startDate := minDate df, endDate := maxDate df,
    amountMin := (defaultBounds df).1, amountMax := (defaultBounds df).2 }

/-- One insertion step of the stable descending sort: walk past the rows
whose date is strictly later, insert before the first row whose date is
not later, so a row inserted later in the fold stays before equal-dated
rows it preceded in the dataframe. -/
def insertDesc (r : Row) : List Row → List Row
  | [] => [r]
  | x :: xs => if r.date < x.date then x :: insertDesc r xs else r :: x :: xs

/-- The stable descending sort the spec asserts for the pipeline — what
`sort_values("Date", ascending=False, kind="stable")` would compute:
descending by `Date`, ties in dataframe order. The code at `app.py` line
141 calls `sort_values` with the DEFAULT kind (`quicksort`), which
satisfies `SortValuesOutput` but does not guarantee this tie order; the
gap is the subject of the C2 theorem. -/
def sortRows : List Row → List Row
  | [] => []
  | r :: rs => insertDesc r (sortRows rs)

/-- What `filtered_df.sort_values("Date", ascending=False)` (`app.py`
line 141) guarantees of its output under the default sort kind: a
permutation of the input, sorted descending by `Date`. pandas documents
the default `quicksort` kind as not stable, so the relative order of
rows with equal `Date` is not part of this contract. -/
def SortValuesOutput (l srt : List Row) : Prop :=
  List.Perm srt l ∧ srt.Pairwise (fun a b => b.date ≤ a.date)

/-- `groupby(key, sort=False)` (`app.py` line 142): the group keys in
order of first appearance, each paired with every row having that key,
in the current row order. -/
def groupByKey (key : Row → Int) (rows : List Row) : List (Int × List Row) :=
  (dedupFirst (rows.map key)).map
    (fun k => (k, rows.filter (fun r => decide (key r = k))))

/-- The grouped rendering input (`app.py` lines 141-142): sort the
filtered rows by date descending — here via the spec's stable refinement
`sortRows` — then group by calendar date. -/
def groupedRows (fd : List Row) : List (Int × List Row) :=
  groupByKey (fun r => calDay r.date) (sortRows fd)

/-- The shape of the main list area: either the grouped transaction
cards, or the `st.info("No transactions found.")` notice. -/
inductive RenderResult where
  | noResults
  | groups (gs : List (Int × List Row))
deriving DecidableEq

/-- `app.py` lines 139-158: a non-empty filtered table is sorted,
grouped by calendar date and rendered; an empty one renders the
"no results" notice. -/
def renderOutput (df : List Row) (s : Selection) : RenderResult :=
  let fd := filteredDf df s
  if fd.isEmpty then .noResults else .groups (groupedRows fd)

/-- The decimal text Python produces for a non-negative float that is a
whole multiple of 1/100 (the values `abs(round(amount, 2))` takes):
integer part, a dot, then the fractional digits with the trailing zero
of a whole-tenth dropped, and at least one digit after the dot. -/
def ratStr (q : Rat) : String :=
  let k : Int := ⌊q * 100⌋
  let ip : Int := k / 100
  let rem : Int := k % 100
  if rem = 0 then toString ip ++ ".0"
  else if rem % 10 = 0 then toString ip ++ "." ++ toString (rem / 10)
  else if rem < 10 then toString ip ++ ".0" ++ toString rem
  else toString ip ++ "." ++ toString rem

/-- The amount text of a transaction card (`app.py` line 153):
`{'+' if row['Amount'] > 0 else ''}{abs(round(row['Amount'], 2))}€`. -/
def amountText (a : Rat) : String :=
  (if 0 < a then "+" else "") ++ ratStr |pyRound2 a| ++ "€"

/-- The amount colour of a transaction card (`app.py` line 148):
`"lightgreen" if row['Amount'] > 0 else "salmon"`. -/
def amountColor (a : Rat) : String :=
  if 0 < a then "lightgreen" else "salmon"

/-- A chat message of the request body (`app.py` lines 21-24). -/
structure Message where
  role : String
  content : String
deriving DecidableEq

/-- The JSON body `data` of the outbound POST (`app.py` lines 19-26). -/
structure RequestData where
  model : String
  messages : List Message
  temperature : Rat
deriving DecidableEq

/-- One record of `df[["Date", "Description", "Category", "Type",
"Amount"]].to_dict(orient="records")` (`app.py` line 86): exactly the
five named columns of a row, nothing else. -/
structure RecordRow where
  date : Int
  description : String
  category : String
  type : String
  amount : Rat
deriving DecidableEq

/-- The column restriction of `app.py` line 86: every row of the full
table, projected to the five columns Date, Description, Category, Type,
Amount. -/
def sampleRecords (df : List Row) : List RecordRow :=
  df.map (fun r =>
    { date := r.date, description := r.description, category := r.category,
      type := r.type, amount := r.amount })

/-- The textual dump of one record, standing for Python's `str()` of the
record dict inside the f-string at `app.py` line 23. -/
def reprRecord (r : RecordRow) : String :=
  "(" ++ toString r.date ++ ", " ++ r.description ++ ", " ++ r.category
    ++ ", " ++ r.type ++ ", " ++ toString r.amount ++ ")"

/-- The textual dump of the records list embedded in the user message. -/
def reprRecords (rs : List RecordRow) : String :=
  "[" ++ String.intercalate ", " (rs.map reprRecord) ++ "]"

/-- The request body built by `get_ai_response` (`app.py` lines 19-26):
the fixed model identifier, the system instruction then the user message
embedding the query and the transaction dump, and temperature 0.2. -/
def aiRequestData (prompt : String) (transactions : List RecordRow)
    (user_query : String) : RequestData :=
  { model := "deepseek-chat",
    messages :=
      [{ role := "system", content := prompt },
       { role := "user",
         content := "Query: " ++ user_query ++ "\nTransactions:\n"
           ++ reprRecords transactions }],
    temperature := 2 / 10 }

/-- An HTTP response as `get_ai_response` consumes it: the status code,
the body text, and `content` modelling
`res.json()["choices"][0]["message"]["content"]` — `none` when the body
does not carry that field (the Python access raises there). -/
structure HttpResponse where
  status : Nat
  text : String
  content : Option String

/-- `get_ai_response` (`app.py` lines 13-32) over a transport oracle
`post`: build the body, POST it, return the completion text on a 200
response carrying the expected field, otherwise fail — with the status
code and body text in the message when the status is not 200. -/
def get_ai_response (post : RequestData → HttpResponse) (prompt : String)
    (transactions : List RecordRow) (user_query : String) :
    Except String String :=
  let res := post (aiRequestData prompt transactions user_query)
  if res.status = 200 then
    match res.content with
    | some c => .ok c
    | none => .error "KeyError"
  else
    .error ("DeepSeek API failed: " ++ toString res.status ++ " - " ++ res.text)

/-- The fixed system instruction of `app.py` lines 87-92. -/
def systemPrompt : String :=
  "You are a financial assistant. The user will ask you about specific bank transactions. "
    ++ "Each transaction has: Date, Description, Category, Type (Income/Expense), and Amount. "
    ++ "Respond by listing only matching transactions in a markdown bullet list like:\n"
    ++ "- 2025-03-04 | 💰 Income | Transfer from Dad: +783.33€"

/-- What the AI section shows: the returned markdown, or the
`st.error(f"AI failed: {e}")` message. -/
inductive AiDisplay where
  | answer (text : String)
  | failure (msg : String)
deriving DecidableEq

/-- The AI section (`app.py` lines 84-99): nothing on an empty query;
otherwise serialize the FULL table, call the bridge, and show either the
answer or the caught error. -/
def runAiSection (post : RequestData → HttpResponse) (df : List Row)
    (ai_query : String) : Option AiDisplay :=
  if ai_query = "" then none
  else
    match get_ai_response post systemPrompt (sampleRecords df) ai_query with
    | .ok t => some (.answer t)
    | .error e => some (.failure ("AI failed: " ++ e))

/-- The page as rendered top to bottom: the AI section's display (if
any) and the main list area. The AI section runs first (`app.py` lines
84-99) and the main list is computed and rendered afterwards (lines
113-158) whatever the AI section did. -/
structure Page where
  ai : Option AiDisplay
  body : RenderResult

/-- One full render cycle of `app.py`. -/
def renderPage (post : RequestData → HttpResponse) (df : List Row)
    (ai_query : String) (s : Selection) : Page :=
  { ai := runAiSection post df ai_query, body := renderOutput df s }

/-! ### Sample data used by witnesses -/

/-- Witness row: an income of 300 on day 20100. -/
def wIncome : Row :=
  { date := 20100 * 86400, description := "Transfer from Dad",
    category := "Income", type := "Income", amount := 300, other := [] }

/-- Witness row: an expense of -500 on day 20050. -/
def wRent : Row :=
  { date := 20050 * 86400, description := "Rent",
    category := "Utilities", type := "Expense", amount := -500, other := [] }

/-- Witness row: an expense of -3 on day 20100 (same day as `wIncome`). -/
def wCoffee : Row :=
  { date := 20100 * 86400, description := "Coffee",
    category := "Bar", type := "Expense", amount := -3, other := [] }

/-- Witness table. -/
def wDf : List Row := [wIncome, wRent, wCoffee]

/-- A same-date pair exhibiting that `SortValuesOutput` does not
determine the order of equal-date rows. -/
def wTieA : Row :=
  { date := 20100 * 86400, description := "Tie A", category := "Bar",
    type := "Expense", amount := -1, other := [] }

/-- The second row of the same-date pair. -/
def wTieB : Row :=
  { date := 20100 * 86400, description := "Tie B", category := "Bar",
    type := "Expense", amount := -2, other := [] }

/-- A witness transport that always answers HTTP 500. -/
def wPost500 : RequestData → HttpResponse :=
  fun _ => { status := 500, text := "Internal Server Error", content := none }

/-- A witness transport that always answers HTTP 200 with a content
field. -/
def wPost200 : RequestData → HttpResponse :=
  fun _ => { status := 200, text := "", content := some "hi" }

/-- A witness selection keeping every row of `wDf`. -/
def wSelAll : Selection :=
  { types := ["Income", "Expense"], categories := ["Income", "Utilities", "Bar"],
    startDate := 20000 * 86400, endDate := 20200 * 86400,
    amountMin := 0, amountMax := 1000 }

/-! ### Lemmas about the stable sort and the grouping -/

theorem insertDesc_perm (r : Row) (l : List Row) :
    List.Perm (insertDesc r l) (r :: l) := by
  induction l with
  | nil => rfl
  | cons x xs ih =>
    by_cases hlt : r.date < x.date
    · simp only [insertDesc, if_pos hlt]
      exact (ih.cons x).trans (List.Perm.swap r x xs)
    · simp only [insertDesc, if_neg hlt]
      exact List.Perm.refl _

theorem sortRows_perm (l : List Row) : List.Perm (sortRows l) l := by
  induction l with
  | nil => rfl
  | cons r rs ih => exact (insertDesc_perm r (sortRows rs)).trans (ih.cons r)

theorem insertDesc_pairwise (r : Row) (l : List Row)
    (h : l.Pairwise (fun a b => b.date ≤ a.date)) :
    (insertDesc r l).Pairwise (fun a b => b.date ≤ a.date) := by
  induction l with
  | nil => simp [insertDesc]
  | cons x xs ih =>
    rcases List.pairwise_cons.mp h with ⟨hx, hxs⟩
    by_cases hlt : r.date < x.date
    · simp only [insertDesc, if_pos hlt]
      refine List.pairwise_cons.mpr ⟨fun y hy => ?_, ih hxs⟩
      rcases List.mem_cons.mp ((insertDesc_perm r xs).mem_iff.mp hy) with rfl | hy2
      · exact le_of_lt hlt
      · exact hx y hy2
    · simp only [insertDesc, if_neg hlt]
      refine List.pairwise_cons.mpr ⟨fun y hy => ?_, h⟩
      rcases List.mem_cons.mp hy with rfl | hy2
      · exact le_of_not_lt hlt
      · exact le_trans (hx y hy2) (le_of_not_lt hlt)

theorem sortRows_pairwise (l : List Row) :
    (sortRows l).Pairwise (fun a b => b.date ≤ a.date) := by
  induction l with
  | nil => simp [sortRows]
  | cons r rs ih => exact insertDesc_pairwise r (sortRows rs) ih

theorem filter_insertDesc (r : Row) (l : List Row) (d : Int) :
    (insertDesc r l).filter (fun x => decide (x.date = d)) =
      if r.date = d then r :: l.filter (fun x => decide (x.date = d))
      else l.filter (fun x => decide (x.date = d)) := by
  induction l with
  | nil =>
    by_cases hrd : r.date = d
    · simp [insertDesc, List.filter_cons, hrd]
    · simp [insertDesc, List.filter_cons, hrd]
  | cons x xs ih =>
    by_cases hlt : r.date < x.date
    · simp only [insertDesc, if_pos hlt]
      by_cases hrd : r.date = d
      · have hxd : ¬(x.date = d) := fun hx => absurd (hx ▸ hrd ▸ hlt) (lt_irrefl _)
        rw [if_pos hrd]
        simp only [List.filter_cons, decide_eq_true_eq, if_neg hxd, ih, if_pos hrd]
      · rw [if_neg hrd]
        simp only [List.filter_cons, decide_eq_true_eq, ih, if_neg hrd]
    · simp only [insertDesc, if_neg hlt]
      by_cases hrd : r.date = d
      · rw [if_pos hrd]
        simp only [List.filter_cons, decide_eq_true_eq, if_pos hrd]
      · rw [if_neg hrd]
        simp only [List.filter_cons, decide_eq_true_eq, if_neg hrd]

theorem sortRows_filter_date (l : List Row) (d : Int) :
    (sortRows l).filter (fun x => decide (x.date = d)) =
      l.filter (fun x => decide (x.date = d)) := by
  induction l with
  | nil => rfl
  | cons r rs ih =>
    show (insertDesc r (sortRows rs)).filter _ = _
    rw [filter_insertDesc]
    by_cases hrd : r.date = d
    · rw [if_pos hrd, ih]
      simp [List.filter_cons, hrd]
    · rw [if_neg hrd, ih]
      simp [List.filter_cons, hrd]

theorem mem_dedupFirstAux [DecidableEq α] (x : α) :
    ∀ (l seen : List α), x ∈ dedupFirstAux seen l ↔ x ∈ l ∧ x ∉ seen := by
  intro l
  induction l with
  | nil => simp [dedupFirstAux]
  | cons k ks ih =>
    intro seen
    by_cases hk : k ∈ seen
    · simp only [dedupFirstAux, if_pos hk, ih, List.mem_cons]
      constructor
      · rintro ⟨h1, h2⟩
        exact ⟨Or.inr h1, h2⟩
      · rintro ⟨h1 | h1, h2⟩
        · exact absurd (h1 ▸ hk) h2
        · exact ⟨h1, h2⟩
    · simp only [dedupFirstAux, if_neg hk, List.mem_cons, ih, List.mem_cons]
      constructor
      · rintro (rfl | ⟨h1, h2⟩)
        · exact ⟨Or.inl rfl, hk⟩
        · exact ⟨Or.inr h1, fun hx => h2 (Or.inr hx)⟩
      · rintro ⟨rfl | h1, h2⟩
        · exact Or.inl rfl
        · by_cases hxk : x = k
          · exact Or.inl hxk
          · exact Or.inr ⟨h1, fun hx => (hx.elim hxk h2)⟩

theorem pairwise_dedupFirstAux (l : List Int)
    (h : l.Pairwise (fun a b => b ≤ a)) :
    ∀ seen : List Int, (dedupFirstAux seen l).Pairwise (fun a b => b < a) := by
  induction l with
  | nil => intro seen; simp [dedupFirstAux]
  | cons k ks ih =>
    intro seen
    rcases List.pairwise_cons.mp h with ⟨hk, hks⟩
    by_cases hmem : k ∈ seen
    · simpa only [dedupFirstAux, if_pos hmem] using ih hks seen
    · simp only [dedupFirstAux, if_neg hmem]
      refine List.pairwise_cons.mpr ⟨fun y hy => ?_, ih hks (k :: seen)⟩
      rcases (mem_dedupFirstAux y ks (k :: seen)).mp hy with ⟨hy1, hy2⟩
      have hne : y ≠ k := fun hyk => hy2 (hyk ▸ List.mem_cons_self k seen)
      exact lt_of_le_of_ne (hk y hy1) hne

theorem pairwise_dedupFirst_of_sorted (l : List Int)
    (h : l.Pairwise (fun a b => b ≤ a)) :
    (dedupFirst l).Pairwise (fun a b => b < a) :=
  pairwise_dedupFirstAux l h []

theorem mem_dedupFirst [DecidableEq α] (x : α) (l : List α) :
    x ∈ dedupFirst l ↔ x ∈ l := by
  rw [dedupFirst, mem_dedupFirstAux]
  simp

theorem sum_filter_lengths {α : Type} (key : α → Int) :
    ∀ (keys : List Int) (rows : List α), keys.Nodup →
      (∀ r ∈ rows, key r ∈ keys) →
      (keys.map (fun k =>
        (rows.filter (fun r => decide (key r = k))).length)).sum = rows.length := by
  intro keys
  induction keys with
  | nil =>
    intro rows _ hall
    have : rows = [] := by
      cases rows with
      | nil => rfl
      | cons r rs => exact absurd (hall r (List.mem_cons_self r rs)) (List.not_mem_nil _)
    simp [this]
  | cons k ks ih =>
    intro rows hnd hall
    rcases List.pairwise_cons.mp hnd with ⟨hknotin, hksnd⟩
    have hsplit := List.length_eq_length_filter_add (l := rows)
      (fun r => decide (key r = k))
    have htail : ∀ k' ∈ ks,
        ((rows.filter (fun r => !decide (key r = k))).filter
          (fun r => decide (key r = k'))).length =
        (rows.filter (fun r => decide (key r = k'))).length := by
      intro k' hk'
      have hne : k' ≠ k := fun he => hknotin k' hk' he.symm
      congr 1
      rw [List.filter_filter]
      refine List.filter_congr (fun r _ => ?_)
      by_cases hr : key r = k'
      · simp [hr, hne]
      · simp [hr]
    have hmem : ∀ r ∈ rows.filter (fun r => !decide (key r = k)), key r ∈ ks := by
      intro r hr
      rcases List.mem_filter.mp hr with ⟨hr1, hr2⟩
      rcases List.mem_cons.mp (hall r hr1) with h | h
      · simp [h] at hr2
      · exact h
    have := ih (rows.filter (fun r => !decide (key r = k))) hksnd hmem
    rw [List.map_congr_left htail] at this
    simp only [List.map_cons, List.sum_cons, this, hsplit]

theorem groupByKey_fst (key : Row → Int) (rows : List Row) :
    (groupByKey key rows).map Prod.fst = dedupFirst (rows.map key) := by
  rw [groupByKey, List.map_map]
  show (dedupFirst (rows.map key)).map (fun k => k) = dedupFirst (rows.map key)
  simp

theorem groupByKey_snd (key : Row → Int) (rows : List Row) :
    ∀ p ∈ groupByKey key rows,
      p.2 = rows.filter (fun r => decide (key r = p.1)) := by
  intro p hp
  rcases List.mem_map.mp hp with ⟨k, _, rfl⟩
  rfl

theorem groupByKey_sum_lengths (key : Row → Int) (rows : List Row)
    (hnd : (dedupFirst (rows.map key)).Nodup) :
    ((groupByKey key rows).map (fun p => p.2.length)).sum = rows.length := by
  have hall : ∀ r ∈ rows, key r ∈ dedupFirst (rows.map key) := by
    intro r hr
    exact (mem_dedupFirst _ _).mpr (List.mem_map.mpr ⟨r, hr, rfl⟩)
  have := sum_filter_lengths key (dedupFirst (rows.map key)) rows hnd hall
  simpa [groupByKey, List.map_map] using this

theorem calDay_mono {a b : Int} (h : a ≤ b) : calDay a ≤ calDay b :=
  Int.ediv_le_ediv (by norm_num) h

/-! ### Lemmas about the banker's rounding -/

theorem roundHalfEven_neg (q : Rat) : roundHalfEven (-q) = -roundHalfEven q := by
  by_cases hz : Int.fract q = 0
  · have hq : ((⌊q⌋ : Int) : Rat) = q := by
      have h := Int.self_sub_fract q
      rw [hz, sub_zero] at h
      exact h.symm
    have hfq : ⌊-q⌋ = -⌊q⌋ := by
      have hneg : -q = ((-⌊q⌋ : Int) : Rat) := by rw [Int.cast_neg, hq]
      rw [hneg, Int.floor_intCast]
    simp only [roundHalfEven, hfq, Int.cast_neg, hq]
    have e1 : -q - -q = (0 : Rat) := by ring
    rw [e1, sub_self, if_pos (by norm_num : (0:Rat) < 1/2),
      if_pos (by norm_num : (0:Rat) < 1/2)]
  · have hx0 : 0 < Int.fract q := lt_of_le_of_ne (Int.fract_nonneg q) (Ne.symm hz)
    have hx1 : Int.fract q < 1 := Int.fract_lt_one q
    have hfn : Int.fract (-q) = 1 - Int.fract q := Int.fract_neg hz
    have hfl : ⌊-q⌋ = -⌊q⌋ - 1 := by
      have h1 : ((⌊-q⌋ : Int) : Rat) = -q - Int.fract (-q) := by
        rw [← Int.self_sub_fract]
      have h2 : ((⌊q⌋ : Int) : Rat) = q - Int.fract q := by
        rw [← Int.self_sub_fract]
      have h3 : ((⌊-q⌋ : Int) : Rat) = ((-⌊q⌋ - 1 : Int) : Rat) := by
        rw [h1, hfn]
        push_cast
        rw [h2]
        ring
      exact_mod_cast h3
    have hq1 : q - ((⌊q⌋ : Int) : Rat) = Int.fract q := Int.self_sub_floor q
    have hq2 : -q - ((⌊-q⌋ : Int) : Rat) = 1 - Int.fract q := by
      rw [hfl]
      push_cast
      rw [← hq1]
      ring
    simp only [roundHalfEven]
    rw [hq1, hq2, hfl]
    rcases lt_trichotomy (Int.fract q) (1/2) with h | h | h
    · rw [if_pos h, if_neg (by linarith : ¬(1 - Int.fract q < 1/2)),
        if_pos (by linarith : (1:Rat)/2 < 1 - Int.fract q)]
      ring
    · rw [if_neg (by rw [h]; norm_num : ¬(1 - Int.fract q < 1/2)),
        if_neg (by rw [h]; norm_num : ¬((1:Rat)/2 < 1 - Int.fract q)),
        if_neg (by rw [h]; exact lt_irrefl _ : ¬(Int.fract q < 1/2))]
      rw [if_neg (by rw [h]; norm_num : ¬((1:Rat)/2 < Int.fract q))]
      by_cases hp : ⌊q⌋ % 2 = 0
      · rw [if_pos hp, if_neg (by omega : ¬((-⌊q⌋ - 1) % 2 = 0))]
        ring
      · rw [if_neg hp, if_pos (by omega : (-⌊q⌋ - 1) % 2 = 0)]
        ring
    · rw [if_neg (by linarith : ¬(Int.fract q < 1/2)),
        if_pos (by linarith : (1:Rat)/2 < Int.fract q),
        if_pos (by linarith : 1 - Int.fract q < 1/2)]
      ring

theorem roundHalfEven_nonneg {q : Rat} (h : 0 ≤ q) : 0 ≤ roundHalfEven q := by
  have hf : 0 ≤ ⌊q⌋ := Int.floor_nonneg.mpr h
  simp only [roundHalfEven]
  split_ifs <;> omega

theorem roundHalfEven_nonpos {q : Rat} (h : q ≤ 0) : roundHalfEven q ≤ 0 := by
  rcases eq_or_lt_of_le h with h0 | h0
  · subst h0
    simp only [roundHalfEven]
    norm_num
  · have hf : ⌊q⌋ < 0 := Int.floor_lt.mpr (by exact_mod_cast h0)
    simp only [roundHalfEven]
    split_ifs <;> omega

theorem pyRound2_nonneg {a : Rat} (h : 0 ≤ a) : 0 ≤ pyRound2 a := by
  have h1 : 0 ≤ roundHalfEven (a * 100) :=
    roundHalfEven_nonneg (by positivity)
  exact div_nonneg (by exact_mod_cast h1) (by norm_num)

theorem pyRound2_nonpos {a : Rat} (h : a ≤ 0) : pyRound2 a ≤ 0 := by
  have h1 : roundHalfEven (a * 100) ≤ 0 :=
    roundHalfEven_nonpos (by nlinarith)
  have h2 : ((roundHalfEven (a * 100) : Int) : Rat) ≤ 0 := by exact_mod_cast h1
  exact div_nonpos_of_nonpos_of_nonneg h2 (by norm_num)

/-- The absolute value of the Python rounding is the rounding of the
absolute value: banker's rounding is symmetric about zero, so the code's
`abs(round(a, 2))` equals the spec's "abs(amount) rounded to 2 decimals". -/
theorem abs_pyRound2 (a : Rat) : |pyRound2 a| = pyRound2 |a| := by
  rcases le_or_lt 0 a with ha | ha
  · rw [abs_of_nonneg ha, abs_of_nonneg (pyRound2_nonneg ha)]
  · rw [abs_of_neg ha, abs_of_nonpos (pyRound2_nonpos ha.le)]
    show -((roundHalfEven (a * 100) : Rat) / 100) =
      (roundHalfEven (-a * 100) : Rat) / 100
    rw [neg_mul, roundHalfEven_neg, Int.cast_neg, neg_div]

/-! ### Evaluation of the witness data -/

theorem rowPasses_wIncome : rowPasses wSelAll wIncome = true := by
  simp only [rowPasses, wSelAll, wIncome, Bool.and_eq_true, decide_eq_true_eq]
  norm_num

theorem rowPasses_wRent : rowPasses wSelAll wRent = true := by
  simp only [rowPasses, wSelAll, wRent, Bool.and_eq_true, decide_eq_true_eq]
  norm_num

theorem rowPasses_wCoffee : rowPasses wSelAll wCoffee = true := by
  simp only [rowPasses, wSelAll, wCoffee, Bool.and_eq_true, decide_eq_true_eq]
  norm_num

theorem filteredDf_wDf : filteredDf wDf wSelAll = wDf := by
  show List.filter _ [wIncome, wRent, wCoffee] = _
  simp [List.filter_cons, rowPasses_wIncome, rowPasses_wRent, rowPasses_wCoffee,
    wDf]

theorem filteredDf_wDf_ne : filteredDf wDf wSelAll ≠ [] := by
  rw [filteredDf_wDf]
  simp [wDf]

/-! ### Theorems -/

/-- Membership in `filtered_df`, unfolded to the four predicates. -/
theorem mem_filteredDf (df : List Row) (s : Selection) (r : Row) :
    r ∈ filteredDf df s ↔
      r ∈ df ∧ r.type ∈ s.types ∧ r.category ∈ s.categories ∧
        (s.startDate ≤ r.date ∧ r.date ≤ s.endDate) ∧
        ((s.amountMin : Rat) ≤ |r.amount| ∧ |r.amount| ≤ (s.amountMax : Rat)) := by
  simp [filteredDf, rowPasses, List.mem_filter, and_assoc]

/-- C1: a row appears in `filtered_df` iff it is a row of the table and
its Type is among the selected types, its Category among the selected
categories, its Date lies in the inclusive selected date range, and
`abs(Amount)` lies in the inclusive selected amount range; the four
predicates are conjoined, so no row failing any of them appears. -/
theorem C1_filtered_membership (df : List Row) (s : Selection) (r : Row) :
    r ∈ filteredDf df s ↔
      r ∈ df ∧ r.type ∈ s.types ∧ r.category ∈ s.categories ∧
        (s.startDate ≤ r.date ∧ r.date ≤ s.endDate) ∧
        ((s.amountMin : Rat) ≤ |r.amount| ∧ |r.amount| ≤ (s.amountMax : Rat)) :=
  mem_filteredDf df s r

/-- C7: filtering is idempotent — applying the filter to its own output
with the same selection returns the same rows. -/
theorem C7_filter_idempotent (df : List Row) (s : Selection) :
    filteredDf (filteredDf df s) s = filteredDf df s := by
  simp [filteredDf, List.filter_filter]

/-- C6: an empty selected type set, or an empty selected category set,
yields zero filtered rows, and the renderer takes the "no results"
notice path. -/
theorem C6_empty_selection_no_results (df : List Row) (s : Selection)
    (h : s.types = [] ∨ s.categories = []) :
    filteredDf df s = [] ∧ renderOutput df s = .noResults := by
  have hfd : filteredDf df s = [] := by
    refine List.filter_eq_nil_iff.mpr (fun r _ => ?_)
    rcases h with h | h <;> simp [rowPasses, h]
  exact ⟨hfd, by simp [renderOutput, hfd]⟩

/-- Witness for C6 at a concrete table and a selection whose type set is
cleared. -/
theorem C6_witness :
    ({ wSelAll with types := [] } : Selection).types = [] ∧
      (filteredDf wDf { wSelAll with types := [] } = [] ∧
        renderOutput wDf { wSelAll with types := [] } = .noResults) :=
  ⟨rfl, C6_empty_selection_no_results wDf { wSelAll with types := [] } (Or.inl rfl)⟩

/-- C2 (code bug): the code sorts with `sort_values("Date",
ascending=False)` under its DEFAULT `quicksort` kind, which guarantees
only `SortValuesOutput` — a permutation sorted descending by date — and
not the stable tie order the claim asserts. For EVERY output the
contract admits, the guaranteed part of the claim holds: grouping by
calendar date yields strictly descending group keys (no duplicate date
groups), each group holds exactly the rows of its calendar date in
output order, the group sizes sum to the filtered row count, and a
non-empty filtered table takes the groups path. The stable sort the
claim asserts satisfies the contract — but the contract does not imply
it: two same-date rows admit two distinct admissible outputs, so the
claim's "ties broken by original row order" is not provided by the
code's sort. -/
theorem C2_sort_contract_underdetermined (df : List Row) (s : Selection)
    (srt : List Row) (hsort : SortValuesOutput (filteredDf df s) srt)
    (hne : filteredDf df s ≠ []) :
    (((groupByKey (fun r => calDay r.date) srt).map Prod.fst).Pairwise
        (fun a b => b < a) ∧
      (∀ p ∈ groupByKey (fun r => calDay r.date) srt,
        p.2 = srt.filter (fun r => decide (calDay r.date = p.1))) ∧
      ((groupByKey (fun r => calDay r.date) srt).map
          (fun p => p.2.length)).sum = (filteredDf df s).length ∧
      (∃ gs, renderOutput df s = .groups gs)) ∧
    SortValuesOutput (filteredDf df s) (sortRows (filteredDf df s)) ∧
    (∀ d : Int,
      (sortRows (filteredDf df s)).filter (fun r => decide (r.date = d)) =
        (filteredDf df s).filter (fun r => decide (r.date = d))) ∧
    (∃ l s1 s2 : List Row,
      SortValuesOutput l s1 ∧ SortValuesOutput l s2 ∧ s1 ≠ s2) := by
  obtain ⟨hperm, hsorted⟩ := hsort
  have hkeys : (srt.map (fun r => calDay r.date)).Pairwise (fun a b => b ≤ a) :=
    List.pairwise_map.mpr (hsorted.imp (fun hab => calDay_mono hab))
  have hdesc := pairwise_dedupFirst_of_sorted _ hkeys
  have hnd : (dedupFirst (srt.map (fun r => calDay r.date))).Nodup :=
    hdesc.imp (fun hab => ne_of_gt hab)
  refine ⟨⟨?_, groupByKey_snd _ _, ?_, ?_⟩,
    ⟨sortRows_perm _, sortRows_pairwise _⟩, sortRows_filter_date _, ?_⟩
  · rw [groupByKey_fst]
    exact hdesc
  · rw [groupByKey_sum_lengths _ _ hnd]
    exact hperm.length_eq
  · refine ⟨groupedRows (filteredDf df s), ?_⟩
    simp only [renderOutput]
    rw [if_neg (fun hc => hne (List.isEmpty_iff.mp hc))]
  · refine ⟨[wTieA, wTieB], [wTieA, wTieB], [wTieB, wTieA],
      ⟨List.Perm.refl _, ?_⟩, ⟨List.Perm.swap wTieA wTieB [], ?_⟩, ?_⟩
    · simp [wTieA, wTieB]
    · simp [wTieA, wTieB]
    · simp [wTieA, wTieB]

/-- Witness for the C2 theorem at the concrete table `wDf`, the all-pass
selection `wSelAll`, and the stable refinement as the sort output. -/
theorem C2_code_bug_witness :
    SortValuesOutput (filteredDf wDf wSelAll)
        (sortRows (filteredDf wDf wSelAll)) ∧
    filteredDf wDf wSelAll ≠ [] ∧
      ((((groupByKey (fun r => calDay r.date)
            (sortRows (filteredDf wDf wSelAll))).map Prod.fst).Pairwise
          (fun a b => b < a) ∧
        (∀ p ∈ groupByKey (fun r => calDay r.date)
            (sortRows (filteredDf wDf wSelAll)),
          p.2 = (sortRows (filteredDf wDf wSelAll)).filter
            (fun r => decide (calDay r.date = p.1))) ∧
        ((groupByKey (fun r => calDay r.date)
            (sortRows (filteredDf wDf wSelAll))).map
            (fun p => p.2.length)).sum = (filteredDf wDf wSelAll).length ∧
        (∃ gs, renderOutput wDf wSelAll = .groups gs)) ∧
      SortValuesOutput (filteredDf wDf wSelAll)
        (sortRows (filteredDf wDf wSelAll)) ∧
      (∀ d : Int,
        (sortRows (filteredDf wDf wSelAll)).filter
            (fun r => decide (r.date = d)) =
          (filteredDf wDf wSelAll).filter (fun r => decide (r.date = d))) ∧
      (∃ l s1 s2 : List Row,
        SortValuesOutput l s1 ∧ SortValuesOutput l s2 ∧ s1 ≠ s2)) :=
  ⟨⟨sortRows_perm _, sortRows_pairwise _⟩, filteredDf_wDf_ne,
    C2_sort_contract_underdetermined wDf wSelAll
      (sortRows (filteredDf wDf wSelAll))
      ⟨sortRows_perm _, sortRows_pairwise _⟩ filteredDf_wDf_ne⟩

/-- C8: a single-date widget value `d` collapses the range to
`start = end = d`, so a row of the table is in the filtered result iff
it passes the type, category and amount predicates and its Date equals
`d` — only same-day transactions pass the date predicate. -/
theorem C8_single_date_collapse (df : List Row) (ts cs : List String)
    (d : Int) (amin amax : Int) (r : Row) :
    resolveDateRange (.single d) = (d, d) ∧
      (r ∈ filteredDf df (mkSelection ts cs (.single d) amin amax) ↔
        r ∈ df ∧ r.type ∈ ts ∧ r.category ∈ cs ∧
          ((amin : Rat) ≤ |r.amount| ∧ |r.amount| ≤ (amax : Rat)) ∧
          r.date = d) := by
  refine ⟨rfl, ?_⟩
  rw [mem_filteredDf]
  simp only [mkSelection, resolveDateRange]
  constructor
  · rintro ⟨h1, h2, h3, ⟨hd1, hd2⟩, h5⟩
    exact ⟨h1, h2, h3, h5, le_antisymm hd2 hd1⟩
  · rintro ⟨h1, h2, h3, h5, hd⟩
    exact ⟨h1, h2, h3, ⟨le_of_eq hd.symm, le_of_eq hd⟩, h5⟩

theorem ratStr_456_10 : ratStr ((456 : Rat)/10) = "45.6" := by
  show (let k : Int := ⌊(456 : Rat)/10 * 100⌋
        let ip : Int := k / 100
        let rem : Int := k % 100
        if rem = 0 then toString ip ++ ".0"
        else if rem % 10 = 0 then toString ip ++ "." ++ toString (rem / 10)
        else if rem < 10 then toString ip ++ ".0" ++ toString rem
        else toString ip ++ "." ++ toString rem) = "45.6"
  have hk : ⌊(456 : Rat)/10 * 100⌋ = 4560 := by norm_num
  simp only [hk]
  norm_num
  decide

theorem ratStr_78333_100 : ratStr ((78333 : Rat)/100) = "783.33" := by
  show (let k : Int := ⌊(78333 : Rat)/100 * 100⌋
        let ip : Int := k / 100
        let rem : Int := k % 100
        if rem = 0 then toString ip ++ ".0"
        else if rem % 10 = 0 then toString ip ++ "." ++ toString (rem / 10)
        else if rem < 10 then toString ip ++ ".0" ++ toString rem
        else toString ip ++ "." ++ toString rem) = "783.33"
  have hk : ⌊(78333 : Rat)/100 * 100⌋ = 78333 := by norm_num
  simp only [hk]
  norm_num
  decide

theorem absRound_456_10 : |pyRound2 ((-456 : Rat)/10)| = 456/10 := by
  have e1 : roundHalfEven ((-456 : Rat)/10 * 100) = -4560 := by
    norm_num [roundHalfEven]
  show |((roundHalfEven ((-456 : Rat)/10 * 100) : Int) : Rat)/100| = 456/10
  rw [e1]
  norm_num

theorem absRound_783333_1000 : |pyRound2 ((783333 : Rat)/1000)| = 78333/100 := by
  have e1 : roundHalfEven ((783333 : Rat)/1000 * 100) = 78333 := by
    norm_num [roundHalfEven]
  show |((roundHalfEven ((783333 : Rat)/1000 * 100) : Int) : Rat)/100| = 78333/100
  rw [e1]
  norm_num

/-- C5: a rendered amount is `{sign}{abs(amount) rounded to 2 decimals}€`
with sign `+` exactly for strictly positive amounts and the empty sign
otherwise, coloured `lightgreen` for positive and `salmon` for
non-positive amounts; in particular `-45.6` renders `45.6€` in the
non-positive colour without a leading `+`, and `783.333` renders
`+783.33€` in the positive colour. -/
theorem C5_amount_format :
    (∀ a : Rat, 0 < a →
      amountText a = "+" ++ ratStr (pyRound2 |a|) ++ "€" ∧
        amountColor a = "lightgreen") ∧
    (∀ a : Rat, a ≤ 0 →
      amountText a = ratStr (pyRound2 |a|) ++ "€" ∧
        amountColor a = "salmon") ∧
    (amountText ((-456 : Rat)/10) = "45.6€" ∧
      amountColor ((-456 : Rat)/10) = "salmon") ∧
    (amountText ((783333 : Rat)/1000) = "+783.33€" ∧
      amountColor ((783333 : Rat)/1000) = "lightgreen") := by
  refine ⟨fun a ha => ⟨?_, ?_⟩, fun a ha => ⟨?_, ?_⟩, ⟨?_, ?_⟩, ⟨?_, ?_⟩⟩
  · rw [amountText, if_pos ha, abs_pyRound2]
  · rw [amountColor, if_pos ha]
  · rw [amountText, if_neg (not_lt.mpr ha), abs_pyRound2, String.empty_append]
  · rw [amountColor, if_neg (not_lt.mpr ha)]
  · rw [amountText, if_neg (by norm_num), absRound_456_10, ratStr_456_10,
      String.empty_append]
    decide
  · rw [amountColor, if_neg (by norm_num)]
  · rw [amountText, if_pos (by norm_num), absRound_783333_1000, ratStr_78333_100]
    decide
  · rw [amountColor, if_pos (by norm_num)]

/-- Witness for the two conditional clauses of C5 at concrete amounts. -/
theorem C5_witness :
    (0 < (300 : Rat) ∧
      (amountText 300 = "+" ++ ratStr (pyRound2 |(300 : Rat)|) ++ "€" ∧
        amountColor 300 = "lightgreen")) ∧
    ((-3 : Rat) ≤ 0 ∧
      (amountText (-3) = ratStr (pyRound2 |(-3 : Rat)|) ++ "€" ∧
        amountColor (-3) = "salmon")) :=
  ⟨⟨by norm_num, C5_amount_format.1 300 (by norm_num)⟩,
   ⟨by norm_num, C5_amount_format.2.1 (-3) (by norm_num)⟩⟩

/-- C3 counterexample: the bridge can fail even on an HTTP 200 response,
when the body does not carry `choices[0].message.content` — Python's
`res.json()["choices"][0]["message"]["content"]` raises there although
the status is 200, so "fails if and only if the status is not 200" is
false as stated. -/
theorem C3_counterexample :
    get_ai_response
        (fun _ => { status := 200, text := "no choices here", content := none })
        systemPrompt [] "show me my expenses" = .error "KeyError" := rfl

/-- C3 (amended): the bridge fails iff the status is not 200 or the 200
body lacks the expected content field; on every non-200 status the error
message carries both the status code and the response body; any bridge
failure is caught at the call site, shown as the inline `AI failed:`
message, and the main transaction list below is still rendered. -/
theorem C3_error_isolated (post : RequestData → HttpResponse)
    (df : List Row) (q : String) (s : Selection) (hq : q ≠ "") :
    ((∃ e, get_ai_response post systemPrompt (sampleRecords df) q = .error e) ↔
      ((post (aiRequestData systemPrompt (sampleRecords df) q)).status ≠ 200 ∨
        (post (aiRequestData systemPrompt (sampleRecords df) q)).content =
          none)) ∧
    ((post (aiRequestData systemPrompt (sampleRecords df) q)).status ≠ 200 →
      ∃ pre mid,
        get_ai_response post systemPrompt (sampleRecords df) q =
          .error (pre
            ++ toString (post (aiRequestData systemPrompt
                (sampleRecords df) q)).status
            ++ mid
            ++ (post (aiRequestData systemPrompt (sampleRecords df) q)).text)) ∧
    (∀ e, get_ai_response post systemPrompt (sampleRecords df) q = .error e →
      renderPage post df q s =
        { ai := some (.failure ("AI failed: " ++ e)),
          body := renderOutput df s }) := by
  refine ⟨⟨?_, ?_⟩, ?_, ?_⟩
  · rintro ⟨e, he⟩
    by_cases h200 : (post (aiRequestData systemPrompt (sampleRecords df) q)).status = 200
    · right
      rw [get_ai_response, if_pos h200] at he
      cases hc : (post (aiRequestData systemPrompt (sampleRecords df) q)).content with
      | none => rfl
      | some c => rw [hc] at he; exact absurd he (by simp)
    · exact Or.inl h200
  · rintro (h | h)
    · exact ⟨_, by rw [get_ai_response, if_neg h]⟩
    · by_cases h200 : (post (aiRequestData systemPrompt (sampleRecords df) q)).status = 200
      · exact ⟨_, by rw [get_ai_response, if_pos h200, h]⟩
      · exact ⟨_, by rw [get_ai_response, if_neg h200]⟩
  · intro h
    exact ⟨"DeepSeek API failed: ", " - ", by rw [get_ai_response, if_neg h]⟩
  · intro e he
    rw [renderPage, runAiSection, if_neg hq, he]

/-- Witness for C3 at a concrete 500-status transport. -/
theorem C3_witness :
    ("biggest expenses" ≠ "") ∧
      (((∃ e, get_ai_response wPost500 systemPrompt (sampleRecords wDf)
            "biggest expenses" = .error e) ↔
        ((wPost500 (aiRequestData systemPrompt (sampleRecords wDf)
            "biggest expenses")).status ≠ 200 ∨
          (wPost500 (aiRequestData systemPrompt (sampleRecords wDf)
            "biggest expenses")).content = none)) ∧
      ((wPost500 (aiRequestData systemPrompt (sampleRecords wDf)
          "biggest expenses")).status ≠ 200 →
        ∃ pre mid,
          get_ai_response wPost500 systemPrompt (sampleRecords wDf)
              "biggest expenses" =
            .error (pre
              ++ toString (wPost500 (aiRequestData systemPrompt
                  (sampleRecords wDf) "biggest expenses")).status
              ++ mid
              ++ (wPost500 (aiRequestData systemPrompt (sampleRecords wDf)
                  "biggest expenses")).text)) ∧
      (∀ e, get_ai_response wPost500 systemPrompt (sampleRecords wDf)
            "biggest expenses" = .error e →
        renderPage wPost500 wDf "biggest expenses" wSelAll =
          { ai := some (.failure ("AI failed: " ++ e)),
            body := renderOutput wDf wSelAll })) :=
  ⟨by decide,
    C3_error_isolated wPost500 wDf "biggest expenses" wSelAll (by decide)⟩

/-- C4: for a non-empty query, the AI section's output is a function of
the response to the single request built from the FULL loaded table —
independent of the current filter selection `s` — whose records are
exactly the rows of `df` restricted to the columns Date, Description,
Category, Type, Amount, and whose body holds the fixed model identifier,
the system-then-user two-message list, and temperature 0.2. -/
theorem C4_request_full_table (post : RequestData → HttpResponse)
    (df : List Row) (q : String) (s : Selection) (hq : q ≠ "") :
    (renderPage post df q s).ai =
      some (match get_ai_response post systemPrompt (sampleRecords df) q with
            | .ok t => AiDisplay.answer t
            | .error e => AiDisplay.failure ("AI failed: " ++ e)) ∧
    sampleRecords df = df.map (fun r =>
      { date := r.date, description := r.description, category := r.category,
        type := r.type, amount := r.amount }) ∧
    aiRequestData systemPrompt (sampleRecords df) q =
      { model := "deepseek-chat",
        messages :=
          [{ role := "system", content := systemPrompt },
           { role := "user",
             content := "Query: " ++ q ++ "\nTransactions:\n"
               ++ reprRecords (sampleRecords df) }],
        temperature := 2/10 } := by
  refine ⟨?_, rfl, rfl⟩
  show runAiSection post df q = _
  rw [runAiSection, if_neg hq]
  cases get_ai_response post systemPrompt (sampleRecords df) q <;> rfl

/-- Witness for C4 at a concrete transport, table and query. -/
theorem C4_witness :
    ("show me April" ≠ "") ∧
      ((renderPage wPost200 wDf "show me April" wSelAll).ai =
        some (match get_ai_response wPost200 systemPrompt (sampleRecords wDf)
            "show me April" with
          | .ok t => AiDisplay.answer t
          | .error e => AiDisplay.failure ("AI failed: " ++ e)) ∧
      sampleRecords wDf = wDf.map (fun r =>
        { date := r.date, description := r.description, category := r.category,
          type := r.type, amount := r.amount }) ∧
      aiRequestData systemPrompt (sampleRecords wDf) "show me April" =
        { model := "deepseek-chat",
          messages :=
            [{ role := "system", content := systemPrompt },
             { role := "user",
               content := "Query: " ++ "show me April" ++ "\nTransactions:\n"
                 ++ reprRecords (sampleRecords wDf) }],
          temperature := 2/10 }) :=
  ⟨by decide,
    C4_request_full_table wPost200 wDf "show me April" wSelAll (by decide)⟩

/-- C9: the slider bounds at the UI boundary are the table's signed
minimum and maximum amounts rounded to the nearest whole euro, while the
filter compares the full-precision absolute amounts against the selected
bounds: a row of amount `0.6` fails the bounds `[1, 5]` although its
rounded amount `1` would lie inside them. -/
theorem C9_rounded_bounds_raw_compare :
    (∀ df : List Row,
      defaultBounds df =
        (roundHalfEven (minAmount df), roundHalfEven (maxAmount df))) ∧
    (∀ (df : List Row) (s : Selection) (r : Row),
      r ∈ filteredDf df s ↔
        r ∈ df ∧ r.type ∈ s.types ∧ r.category ∈ s.categories ∧
          (s.startDate ≤ r.date ∧ r.date ≤ s.endDate) ∧
          ((s.amountMin : Rat) ≤ |r.amount| ∧
            |r.amount| ≤ (s.amountMax : Rat))) ∧
    (rowPasses
        { types := ["Expense"], categories := ["Bar"], startDate := 0,
          endDate := 10, amountMin := 1, amountMax := 5 }
        { date := 0, description := "snack", category := "Bar",
          type := "Expense", amount := 3/5, other := [] } = false ∧
      roundHalfEven ((3 : Rat)/5) = 1 ∧
      (1 : Int) ≤ roundHalfEven ((3 : Rat)/5) ∧ roundHalfEven ((3 : Rat)/5) ≤ 5) := by
  refine ⟨fun df => rfl, mem_filteredDf, ?_, ?_, ?_, ?_⟩
  · have hlt : ¬((((1 : Int) : Rat)) ≤ |(3 : Rat)/5|) := by
      rw [abs_of_nonneg (by norm_num : (0 : Rat) ≤ (3 : Rat)/5)]
      norm_num
    simp only [rowPasses, decide_eq_false hlt, Bool.and_false, Bool.false_and]
  · norm_num [roundHalfEven]
  · norm_num [roundHalfEven]
  · norm_num [roundHalfEven]

theorem defaultBounds_wDf : defaultBounds wDf = (-500, 300) := by
  have hmin : minAmount wDf = -500 := by
    simp only [minAmount, wDf, wIncome, wRent, wCoffee, List.foldl, min_def]
    norm_num
  have hmax : maxAmount wDf = 300 := by
    simp only [maxAmount, wDf, wIncome, wRent, wCoffee, List.foldl, max_def]
    norm_num
  rw [defaultBounds, hmin, hmax]
  have h1 : roundHalfEven (-500 : Rat) = -500 := by norm_num [roundHalfEven]
  have h2 : roundHalfEven (300 : Rat) = 300 := by norm_num [roundHalfEven]
  rw [h1, h2]

/-- C10: the default slider selection is computed from the signed
extrema, `(round(min Amount), round(max Amount))`, while the filter
compares absolute amounts; so any row whose absolute amount exceeds the
rounded maximum signed amount — e.g. an expense more negative than the
largest income — is excluded even under the untouched default selection
(all types, all categories, full date range). -/
theorem C10_default_selection_excludes (df : List Row) (r : Row)
    (hmem : r ∈ df)
    (hgt : (((defaultBounds df).2 : Int) : Rat) < |r.amount|) :
    r ∉ filteredDf df (defaultSelection df) := by
  intro hin
  have h := (mem_filteredDf df (defaultSelection df) r).mp hin
  have hle : |r.amount| ≤ (((defaultBounds df).2 : Int) : Rat) := h.2.2.2.2.2
  exact absurd hle (not_le.mpr hgt)

/-- Witness for C10: in `wDf` the rent of -500 exceeds in magnitude the
rounded maximum signed amount 300, and is dropped by the untouched
default selection. -/
theorem C10_witness :
    wRent ∈ wDf ∧
      ((((defaultBounds wDf).2 : Int) : Rat) < |wRent.amount|) ∧
      wRent ∉ filteredDf wDf (defaultSelection wDf) :=
  ⟨by simp [wDf],
   by rw [defaultBounds_wDf]; norm_num [wRent],
   C10_default_selection_excludes wDf wRent (by simp [wDf])
     (by rw [defaultBounds_wDf]; norm_num [wRent])⟩

end RevolutApp
